import Mathlib

/-!
Verification of the PocketRPG turn-based battle core against its
natural-language specification.

The definitions below are a shallow embedding of the Python sources:
  * `src/game/enums.py`            — `StatType`, `EnemyType`, `EnemyBehavior`, `CombatResult`
  * `src/game/entities/entity.py`  — `Entity` and its stat/health/effect operations
  * `src/game/systems/effect.py`   — `Effect` variants and their `apply`/`remove`/`tick`
  * `src/game/systems/combat.py`   — damage calculation, attack/flee resolution,
                                     end-of-combat check
  * `src/game/entities/enemy.py`   — the non-player action policy
  * `src/game/items/inventory.py`  — inventory add/remove and capacity logic

Python dictionaries keyed by an enum with `.get(key, 0)` access are embedded
as total functions with default 0; Python mutation becomes explicit state
passing; the random jitter, critical roll and AI random draws are passed in
as explicit oracle parameters (rationals / booleans).  Python `int(x)` on a
nonnegative float is the floor; the general truncation-toward-zero is
embedded as `pyInt`.
-/

namespace PocketRPG

/-- The stat enumeration from `src/game/enums.py` (`StatType`). -/
inductive StatType
  | health | maxHealth | mana | maxMana | attack | defense | speed | level | experience
  deriving DecidableEq

/-- The enum constructor `StatType(stat_name)` from Python: maps the string
value of a member to the member, and fails (`ValueError`, embedded as `none`)
on any other string. -/
def statTypeOfString (s : String) : Option StatType :=
  if s = ("health") then some StatType.health
  else if s = ("max_health") then some StatType.maxHealth
  else if s = ("mana") then some StatType.mana
  else if s = ("max_mana") then some StatType.maxMana
  else if s = ("attack") then some StatType.attack
  else if s = ("defense") then some StatType.defense
  else if s = ("speed") then some StatType.speed
  else if s = ("level") then some StatType.level
  else if s = ("experience") then some StatType.experience
  else none

/-- The payload distinguishing the `Effect` subclasses of
`src/game/systems/effect.py` that the claims exercise:
`StatModifierEffect` (its `stat_modifiers: Dict[str, int]`, embedded as an
association list), `DamageOverTimeEffect` (`damage_per_tick`) and
`HealOverTimeEffect` (`heal_per_tick`). -/
inductive EffectKind
  | statModifier (stat_modifiers : List (String × Int))
  | damageOverTime (damage_per_tick : Int)
  | healOverTime (heal_per_tick : Int)
  deriving DecidableEq

/-- An `Effect` from `src/game/systems/effect.py`: its `name`, its mutable
`duration` counter, its variant payload, and the `data` bookkeeping dict
(only integer-valued keys are ever stored: `total_damage_dealt` /
`total_healing_done`).  The purely presentational fields (`description`,
`max_duration`, `effect_type`, `target`, `is_stackable`, `can_be_dispelled`,
`is_hidden`) play no role in any claim and are omitted. -/
structure Effect where
  name : String
  duration : Int
  kind : EffectKind
  data : List (String × Int)
  deriving DecidableEq

/-- An `Entity` from `src/game/entities/entity.py`: the `stats` dict
(read with `.get(stat, 0)`, hence a total function with default 0), the
`temporary_modifiers` dict (same access pattern), the `status_effects`
list and the three combat flags.  Identity fields (`id`, `name`,
`entity_type`, `level`) play no role in any claim and are omitted. -/
structure Entity where
  stats : StatType → Int
  temporary_modifiers : StatType → Int
  status_effects : List Effect
  is_alive : Bool
  is_stunned : Bool
  is_defending : Bool

/-- `Entity.get_stat`: base value plus temporary modifier, floored at 0. -/
def Entity.get_stat (e : Entity) (stat_type : StatType) : Int :=
  max 0 (e.stats stat_type + e.temporary_modifiers stat_type)

/-- `Entity.set_stat`: store `max(0, value)` for the stat. -/
def Entity.set_stat (e : Entity) (stat_type : StatType) (value : Int) : Entity :=
  { e with stats := Function.update e.stats stat_type (max 0 value) }

/-- `Entity.add_temporary_modifier`: add `amount` to the stat's modifier. -/
def Entity.add_temporary_modifier (e : Entity) (stat_type : StatType) (amount : Int) : Entity :=
  { e with temporary_modifiers :=
      (Function.update e.temporary_modifiers stat_type
        (e.temporary_modifiers stat_type + amount)) }

/-- `Entity.remove_temporary_modifier`: subtract `amount` from the stat's
modifier, floored at 0. -/
def Entity.remove_temporary_modifier (e : Entity) (stat_type : StatType) (amount : Int) : Entity :=
  { e with temporary_modifiers :=
      (Function.update e.temporary_modifiers stat_type
        (max 0 (e.temporary_modifiers stat_type - amount))) }

/-- `Entity.take_damage`: no-op returning 0 when dead; otherwise subtract
`max(1, damage - defense)` from health (floored at 0), set `is_alive` to
false when health reaches 0, and return the actual damage taken. -/
def Entity.take_damage (e : Entity) (damage : Int) : Int × Entity :=
  if e.is_alive = false then (0, e)
  else
    let defense := e.get_stat StatType.defense
    let actual_damage := max 1 (damage - defense)
    let current_health := e.get_stat StatType.health
    let new_health := max 0 (current_health - actual_damage)
    let e' := e.set_stat StatType.health new_health
    if new_health = 0 then (actual_damage, { e' with is_alive := false })
    else (actual_damage, e')

/-- `Entity.heal`: no-op returning 0 when dead; otherwise heal by
`min(amount, max_health - current_health)` and return the actual healing. -/
def Entity.heal (e : Entity) (amount : Int) : Int × Entity :=
  if e.is_alive = false then (0, e)
  else
    let current_health := e.get_stat StatType.health
    let max_health := e.get_stat StatType.maxHealth
    let actual_healing := min amount (max_health - current_health)
    (actual_healing, e.set_stat StatType.health (current_health + actual_healing))

/-- `Entity.reset_combat_state`: clear the stunned/defending flags and all
temporary modifiers (invoked only at combat initialization and combat end). -/
def Entity.reset_combat_state (e : Entity) : Entity :=
  { e with is_stunned := false, is_defending := false,
           temporary_modifiers := fun _ => 0 }

/-- `Effect.apply` from `src/game/systems/effect.py`:
`StatModifierEffect.apply` adds each modifier whose key names a valid
`StatType` as a temporary modifier (invalid keys are silently skipped);
`DamageOverTimeEffect.apply` and `HealOverTimeEffect.apply` are `pass`
(their source comments say the work happens in `tick()`). -/
def Effect.apply (eff : Effect) (entity : Entity) : Entity :=
  match eff.kind with
  | EffectKind.statModifier stat_modifiers =>
      stat_modifiers.foldl
        (fun acc p =>
          match statTypeOfString p.1 with
          | some stat_type => acc.add_temporary_modifier stat_type p.2
          | none => acc)
        entity
  | EffectKind.damageOverTime _ => entity
  | EffectKind.healOverTime _ => entity

/-- `Effect.remove` from `src/game/systems/effect.py`:
`StatModifierEffect.remove` removes each valid modifier;
the over-time variants are `pass`.  Nothing in the engine ever calls this. -/
def Effect.remove (eff : Effect) (entity : Entity) : Entity :=
  match eff.kind with
  | EffectKind.statModifier stat_modifiers =>
      stat_modifiers.foldl
        (fun acc p =>
          match statTypeOfString p.1 with
          | some stat_type => acc.remove_temporary_modifier stat_type p.2
          | none => acc)
        entity
  | EffectKind.damageOverTime _ => entity
  | EffectKind.healOverTime _ => entity

/-- Helper for `self.data[key] = self.data.get(key, 0) + v` on the effect's
`data` dict. -/
def dataAdd (data : List (String × Int)) (key : String) (v : Int) : List (String × Int) :=
  match data.find? (fun p => p.1 == key) with
  | some p => data.map (fun q => if q.1 == key then (q.1, p.2 + v) else q)
  | none => data ++ [(key, v)]

/-- `Effect.tick` from `src/game/systems/effect.py`: the base class ticks as
`pass` (so `StatModifierEffect` does); `DamageOverTimeEffect.tick` deals
`damage_per_tick` via `take_damage` to a living holder and accumulates
`total_damage_dealt`; `HealOverTimeEffect.tick` heals analogously.
Nothing in the engine ever calls this either — `process_status_effects`
below calls `apply` instead. -/
def Effect.tick (eff : Effect) (entity : Entity) : Effect × Entity :=
  match eff.kind with
  | EffectKind.statModifier _ => (eff, entity)
  | EffectKind.damageOverTime damage_per_tick =>
      if entity.is_alive then
        let r := entity.take_damage damage_per_tick
        ({ eff with data := dataAdd eff.data ("total_damage_dealt") r.1 }, r.2)
      else (eff, entity)
  | EffectKind.healOverTime heal_per_tick =>
      if entity.is_alive then
        let r := entity.heal heal_per_tick
        ({ eff with data := dataAdd eff.data ("total_healing_done") r.1 }, r.2)
      else (eff, entity)

/-- `Entity.process_status_effects` (`src/game/entities/entity.py` lines
162–175), embedded exactly as written: for each active effect, call
`effect.apply(self)` — not `tick` — then decrement its duration; effects
whose duration is now ≤ 0 are collected and afterwards dropped from the
list (without `effect.remove(self)` ever being invoked). -/
def Entity.process_status_effects (e : Entity) : Entity :=
  let r := e.status_effects.foldl
    (fun (acc : Entity × List Effect) eff =>
      let e' := Effect.apply eff acc.1
      let eff' := { eff with duration := eff.duration - 1 }
      (e', acc.2 ++ [eff']))
    (e, [])
  { r.1 with status_effects := r.2.filter (fun eff => decide (0 < eff.duration)) }

/-! ### Combat engine (`src/game/systems/combat.py`) -/

/-- Python `int(x)` applied to a rational value: truncation toward zero
(floor for nonnegative values, ceiling for negative ones). -/
def pyInt (q : ℚ) : Int :=
  if 0 ≤ q then q.floor else -((-q).floor)

theorem Rat.floor_eq_intFloor (q : ℚ) : q.floor = ⌊q⌋ := by
  rw [Rat.floor_def' , Rat.floor_def]

theorem pyInt_eq_floor {q : ℚ} (h : 0 ≤ q) : pyInt q = ⌊q⌋ := by
  rw [pyInt, if_pos h, Rat.floor_eq_intFloor]

theorem pyInt_intCast (n : ℤ) : pyInt ((n : ℚ)) = n := by
  rcases le_or_lt 0 n with h | h
  · rw [pyInt_eq_floor (by exact_mod_cast h), Int.floor_intCast]
  · have h0 : ¬ (0 : ℚ) ≤ (n : ℚ) := by
      rw [not_le]
      exact_mod_cast h
    rw [pyInt, if_neg h0, ← Int.cast_neg, Rat.floor_eq_intFloor, Int.floor_intCast, neg_neg]

/-- `CombatResult` from `src/game/enums.py`. -/
inductive CombatResult
  | victory | defeat | flee | ongoing
  deriving DecidableEq

/-- The result fields of a `CombatTurn` (`src/game/systems/combat.py`):
`damage_dealt`, `healing_done`, `effects_applied`, `success`, with their
constructor defaults.  The entity/action/target references are implicit in
how the step functions below are invoked. -/
structure CombatTurn where
  damage_dealt : Int := 0
  healing_done : Int := 0
  effects_applied : List String := []
  success : Bool := false
  deriving DecidableEq

/-- `Combat._calculate_damage`: attacker's attack stat minus the target's
defense stat (doubled while the target is defending), floored at 1, then
multiplied by the uniform random jitter drawn from [0.8, 1.2] (passed here
as the oracle `jitter`) and truncated by Python `int()`. -/
def calculate_damage (attacker target : Entity) (jitter : ℚ) : Int :=
  let base_damage := attacker.get_stat StatType.attack
  let defense0 := target.get_stat StatType.defense
  let defense := if target.is_defending then defense0 * 2 else defense0
  let damage := max 1 (base_damage - defense)
  pyInt ((damage : ℚ) * jitter)

/-- `Combat._is_critical_hit`: the `random.random()` draw (oracle `roll`)
is compared against `0.05 + speed * 0.001`. -/
def is_critical_hit (attacker : Entity) (roll : ℚ) : Bool :=
  let crit_chance : ℚ := 5 / 100 + (attacker.get_stat StatType.speed : ℚ) * (1 / 1000)
  decide (roll < crit_chance)

/-- The `CombatAction.ATTACK` branch of `Combat._execute_action`, embedded
exactly as written: when the target is alive, compute the damage, deliver it
via `take_damage`, record the actual damage in the turn — and only then, on
a successful critical roll, multiply the *recorded* figure by 1.5 (the
target has already taken the unmultiplied damage). -/
def execute_attack (attacker target : Entity) (jitter roll : ℚ) : CombatTurn × Entity :=
  if target.is_alive then
    let damage := calculate_damage attacker target jitter
    let r := target.take_damage damage
    let turn : CombatTurn := { damage_dealt := r.1, success := true }
    if is_critical_hit attacker roll then
      ({ turn with damage_dealt := pyInt ((turn.damage_dealt : ℚ) * (3 / 2)),
                   effects_applied := turn.effects_applied ++ [("critical_hit")] }, r.2)
    else (turn, r.2)
  else ({}, target)

/-- The `CombatAction.FLEE` branch of `Combat._execute_action`: for a
player-controlled entity the turn is marked successful and tagged `fled`;
no participant state changes. -/
def execute_flee (is_player : Bool) : CombatTurn :=
  if is_player then { success := true, effects_applied := [("fled")] }
  else {}

/-- The membership test `hasattr(turn, 'effects_applied')` that
`Combat._check_combat_end` runs over `self.combat_log` — whose elements are
plain strings, which never carry an `effects_applied` attribute, so the
test is identically false. -/
def log_entry_has_effects_applied (_ : String) : Bool := false

/-- `Combat._check_combat_end`, embedded exactly as written: defeat when no
player is alive, victory when no enemy is alive, then the flee check — which
scans `[effect for turn in self.combat_log if hasattr(turn, 'effects_applied')]`
for the string `fled`; the filter never passes (the log holds strings), so
the comprehension is always empty — and otherwise ongoing. -/
def check_combat_end (players enemies : List Entity) (combat_log : List String) : CombatResult :=
  let alive_players := players.filter (fun p => p.is_alive)
  if alive_players.isEmpty then CombatResult.defeat
  else
    let alive_enemies := enemies.filter (fun e => e.is_alive)
    if alive_enemies.isEmpty then CombatResult.victory
    else
      let fled_entries := combat_log.filter (fun line => log_entry_has_effects_applied line)
      if players.any (fun _ => fled_entries.contains ("fled")) then CombatResult.flee
      else CombatResult.ongoing

/-! ### Non-player action policy (`src/game/entities/enemy.py`) -/

/-- `EnemyType` from `src/game/enums.py`. -/
inductive EnemyType
  | normal | elite | boss | miniboss
  deriving DecidableEq

/-- `EnemyBehavior` from `src/game/enums.py`. -/
inductive EnemyBehavior
  | aggressive | defensive | balanced | healer | spellcaster
  deriving DecidableEq

/-- An `Enemy` (`src/game/entities/enemy.py`): its underlying entity state
plus the AI-relevant fields `enemy_type`, `behavior` and the `ai_cooldowns`
dict (read with `.get(name, 0)`, hence a total function with default 0).
The loot/reward fields play no role in any claim and are omitted. -/
structure Enemy where
  base : Entity
  enemy_type : EnemyType
  behavior : EnemyBehavior
  ai_cooldowns : String → Int

/-- `StatUtils.calculate_percentage` (`src/game/utils/stat_utils.py`):
`(current / maximum) * 100` with 0 on a nonpositive maximum. -/
def calculate_percentage (current maximum : Int) : ℚ :=
  if maximum ≤ 0 then 0 else ((current : ℚ) / (maximum : ℚ)) * 100

/-- `Entity.get_health_percentage`. -/
def Entity.get_health_percentage (e : Entity) : ℚ :=
  calculate_percentage (e.get_stat StatType.health) (e.get_stat StatType.maxHealth)

/-- `Enemy._update_cooldowns`: decrement every strictly positive cooldown. -/
def Enemy.update_cooldowns (en : Enemy) : Enemy :=
  { en with ai_cooldowns := fun ability =>
      if 0 < en.ai_cooldowns ability then en.ai_cooldowns ability - 1
      else en.ai_cooldowns ability }

/-- `Enemy._can_use_ability`: the ability's cooldown is ≤ 0. -/
def Enemy.can_use_ability (en : Enemy) (ability_name : String) : Bool :=
  decide (en.ai_cooldowns ability_name ≤ 0)

/-- `Enemy._get_available_actions`: `attack`/`defend` always; `special_attack`
for elite/mini-boss/boss; `area_attack` for mini-boss/boss; `heal` when the
mana stat exceeds 10. -/
def Enemy.get_available_actions (en : Enemy) : List String :=
  let actions := [("attack" : String), ("defend" : String)]
  let actions :=
    if en.enemy_type = EnemyType.elite ∨ en.enemy_type = EnemyType.miniboss
        ∨ en.enemy_type = EnemyType.boss
    then actions ++ [("special_attack")] else actions
  let actions :=
    if en.enemy_type = EnemyType.miniboss ∨ en.enemy_type = EnemyType.boss
    then actions ++ [("area_attack")] else actions
  if 10 < en.base.get_stat StatType.mana then actions ++ [("heal")] else actions

/-- `Enemy._aggressive_ai`. -/
def Enemy.aggressive_ai (en : Enemy) (actions : List String) : String :=
  if actions.contains ("attack") then ("attack")
  else if actions.contains ("special_attack") && en.can_use_ability ("special_attack")
  then ("special_attack")
  else ("defend")

/-- `Enemy._defensive_ai`. -/
def Enemy.defensive_ai (en : Enemy) (actions : List String) : String :=
  if en.base.get_health_percentage < 30 then ("defend")
  else if actions.contains ("attack") then ("attack")
  else ("defend")

/-- `Enemy._healer_ai`. -/
def Enemy.healer_ai (en : Enemy) (actions : List String) : String :=
  if en.base.get_health_percentage < 50 ∧ actions.contains ("heal") = true then ("heal")
  else if actions.contains ("attack") then ("attack")
  else ("defend")

/-- `Enemy._spellcaster_ai`. -/
def Enemy.spellcaster_ai (en : Enemy) (actions : List String) : String :=
  if actions.contains ("special_attack") && en.can_use_ability ("special_attack")
  then ("special_attack")
  else if actions.contains ("attack") then ("attack")
  else ("defend")

/-- `Enemy._balanced_ai`, with its two random draws passed as oracles:
`rand_special` for the `random.random() < 0.3` comparison and `rand_choice`
for the final `random.choice(["attack", "defend"])` (true picks `attack`). -/
def Enemy.balanced_ai (en : Enemy) (actions : List String)
    (rand_special : ℚ) (rand_choice : Bool) : String :=
  if en.base.get_health_percentage < 25 ∧ actions.contains ("heal") = true then ("heal")
  else if actions.contains ("special_attack") && en.can_use_ability ("special_attack")
          && decide (rand_special < 3 / 10)
  then ("special_attack")
  else if rand_choice then ("attack") else ("defend")

/-- `Enemy.get_ai_action`: update the cooldowns, compute the available
actions, then dispatch on the behavior tag.  Returns the chosen action name
together with the enemy whose cooldowns were updated. -/
def Enemy.get_ai_action (en : Enemy) (rand_special : ℚ) (rand_choice : Bool) :
    String × Enemy :=
  let en' := en.update_cooldowns
  let actions := en'.get_available_actions
  match en'.behavior with
  | EnemyBehavior.aggressive => (en'.aggressive_ai actions, en')
  | EnemyBehavior.defensive => (en'.defensive_ai actions, en')
  | EnemyBehavior.healer => (en'.healer_ai actions, en')
  | EnemyBehavior.spellcaster => (en'.spellcaster_ai actions, en')
  | EnemyBehavior.balanced => (en'.balanced_ai actions rand_special rand_choice, en')

/-! ### Inventory (`src/game/items/inventory.py`, `src/game/items/item.py`) -/

/-- An `Item` (`src/game/items/item.py`): the fields that the inventory's
add/remove/capacity logic reads — `name`, `stackable`, `max_stack`,
`quantity`.  The presentational and usage fields (description, rarity,
quality, value, item_type, requirements) play no role in any claim and are
omitted. -/
structure Item where
  name : String
  stackable : Bool
  max_stack : Int
  quantity : Int
  deriving DecidableEq

/-- An `Inventory`: `max_capacity`, the `items` dict (`item_name -> Item`,
insertion-ordered, embedded as an association list with dict update
semantics) and the separate `item_order` name list that the source also
maintains. -/
structure Inventory where
  max_capacity : Int
  items : List (String × Item)
  item_order : List String
  deriving DecidableEq

/-- Dict read `self.items.get(name)` / `name in self.items`. -/
def lookupItem (inv : Inventory) (n : String) : Option Item :=
  (inv.items.find? (fun p => p.1 == n)).map (fun p => p.2)

/-- Dict write `self.items[name] = it`: replace the entry in place if the
key is present, append otherwise. -/
def setEntry : List (String × Item) → String → Item → List (String × Item)
  | [], n, it => [(n, it)]
  | p :: rest, n, it =>
      if p.1 == n then (n, it) :: rest else p :: setEntry rest n it

/-- Dict delete `del self.items[name]`: drop the entry with the key. -/
def delEntry : List (String × Item) → String → List (String × Item)
  | [], _ => []
  | p :: rest, n => if p.1 == n then rest else p :: delEntry rest n

/-- `Inventory.get_used_capacity`: the number of dict entries. -/
def Inventory.get_used_capacity (inv : Inventory) : Int :=
  inv.items.length

/-- `Inventory.is_full`. -/
def Inventory.is_full (inv : Inventory) : Bool :=
  decide (inv.max_capacity ≤ inv.get_used_capacity)

/-- `Inventory._can_add_item`, embedded branch for branch: a stackable item
with an existing entry can be added iff the combined quantity fits the
existing entry's max stack; otherwise the add is possible iff the inventory
is not full (both following `if self.is_full() ...` branches reject exactly
when the inventory is full, whether or not the item is stackable). -/
def Inventory.can_add_item (inv : Inventory) (item : Item) (quantity : Int) : Bool :=
  match lookupItem inv item.name with
  | some existing =>
      if item.stackable then decide (existing.quantity + quantity ≤ existing.max_stack)
      else !(inv.is_full)
  | none => !(inv.is_full)

/-- `Inventory.add_item` with an explicit fuel parameter for the recursive
overflow call `self.add_item(item, quantity - can_add)` (which, as proven
below, is unreachable: `_can_add_item` already rejects any quantity that
does not fit the existing stack).  `_create_item_copy` followed by
`new_item.quantity = quantity` is the record update `{ item with quantity }`. -/
def add_item_fuel : Nat → Inventory → Item → Int → Bool × Inventory
  | 0, inv, _, _ => (false, inv)
  | Nat.succ fuel, inv, item, quantity =>
    if quantity ≤ 0 then (false, inv)
    else if !(inv.can_add_item item quantity) then (false, inv)
    else
      match lookupItem inv item.name with
      | some existing =>
        if item.stackable then
          if existing.quantity + quantity ≤ existing.max_stack then
            let grown := { existing with quantity := existing.quantity + quantity }
            (true, { inv with items := setEntry inv.items item.name grown })
          else
            let can_add := existing.max_stack - existing.quantity
            let filled := { existing with quantity := existing.max_stack }
            let inv' := { inv with items := setEntry inv.items item.name filled }
            add_item_fuel fuel inv' item (quantity - can_add)
        else
          let new_item := { item with quantity := quantity }
          (true, { inv with items := setEntry inv.items item.name new_item,
                            item_order := inv.item_order ++ [item.name] })
      | none =>
        let new_item := { item with quantity := quantity }
        (true, { inv with items := setEntry inv.items item.name new_item,
                          item_order := inv.item_order ++ [item.name] })

/-- `Inventory.add_item`.  One recursive step strictly decreases the
remaining quantity whenever it fires, so `quantity.toNat + 1` units of fuel
always suffice (in fact the recursion never fires at all). -/
def Inventory.add_item (inv : Inventory) (item : Item) (quantity : Int) : Bool × Inventory :=
  add_item_fuel (Nat.succ quantity.toNat) inv item quantity

/-- `Inventory.remove_item`: fail when absent or short; otherwise decrement,
deleting the entry (and its `item_order` occurrence) at quantity ≤ 0. -/
def Inventory.remove_item (inv : Inventory) (item_name : String) (quantity : Int) :
    Bool × Inventory :=
  match lookupItem inv item_name with
  | none => (false, inv)
  | some item =>
    if item.quantity < quantity then (false, inv)
    else
      if item.quantity - quantity ≤ 0 then
        (true, { inv with items := delEntry inv.items item_name,
                          item_order := inv.item_order.erase item_name })
      else
        (true, { inv with items := (setEntry inv.items item_name
                    { item with quantity := item.quantity - quantity }) })

/-- The total stored quantity: the sum of the quantities of all stack
entries (dict values). -/
def Inventory.total_quantity (inv : Inventory) : Int :=
  (inv.items.map (fun p => p.2.quantity)).sum

/-! ### Claims about the entity health/alive state (C8, C9) -/

/-- The reachable-state invariant on an entity's health bookkeeping:
base health lies in `[0, max_health]` and the alive flag is false exactly
when base health is 0. -/
def HealthInvariant (e : Entity) : Prop :=
  0 ≤ e.stats StatType.health ∧
  e.stats StatType.health ≤ e.stats StatType.maxHealth ∧
  (e.is_alive = false ↔ e.stats StatType.health = 0)

theorem take_damage_snd_temporary_modifiers (e : Entity) (damage : Int) :
    (e.take_damage damage).2.temporary_modifiers = e.temporary_modifiers := by
  rw [Entity.take_damage]
  split
  · rfl
  · simp only []
    split
    · simp [Entity.set_stat]
    · simp [Entity.set_stat]

theorem heal_snd_temporary_modifiers (e : Entity) (amount : Int) :
    (e.heal amount).2.temporary_modifiers = e.temporary_modifiers := by
  rw [Entity.heal]
  split
  · rfl
  · simp [Entity.set_stat]

/-- C8: the health-mutating operations (`take_damage`, `heal`, for any
damage figure and any nonnegative healing amount) keep health within
`[0, max_health]`, flip `is_alive` to false exactly when health reaches 0,
and never flip it back (a dead entity is left entirely unchanged — there is
no revive path).  Stated for entities carrying no temporary modifier on
health/max_health, which both operations also preserve. -/
theorem take_damage_heal_preserve_health_invariant (e : Entity) (damage amount : Int)
    (hinv : HealthInvariant e)
    (hmod : e.temporary_modifiers StatType.health = 0)
    (hmodM : e.temporary_modifiers StatType.maxHealth = 0)
    (hamt : 0 ≤ amount) :
    HealthInvariant (e.take_damage damage).2 ∧
    (e.take_damage damage).2.temporary_modifiers = e.temporary_modifiers ∧
    (e.take_damage damage).2.stats StatType.maxHealth = e.stats StatType.maxHealth ∧
    HealthInvariant (e.heal amount).2 ∧
    (e.heal amount).2.temporary_modifiers = e.temporary_modifiers ∧
    (e.heal amount).2.stats StatType.maxHealth = e.stats StatType.maxHealth ∧
    (e.is_alive = false → (e.take_damage damage).2 = e ∧ (e.heal amount).2 = e) := by
  obtain ⟨h0, hle, hiff⟩ := hinv
  by_cases ha : e.is_alive = false
  · rw [Entity.take_damage, if_pos ha, Entity.heal, if_pos ha]
    exact ⟨⟨h0, hle, hiff⟩, rfl, rfl, ⟨h0, hle, hiff⟩, rfl, rfl, fun _ => ⟨rfl, rfl⟩⟩
  · have halive : e.is_alive = true := by
      cases hb : e.is_alive
      · exact absurd hb ha
      · rfl
    have hpos : 0 < e.stats StatType.health := by
      rcases lt_or_eq_of_le h0 with h | h
      · exact h
      · exact absurd (hiff.mpr h.symm) ha
    have hcur : e.get_stat StatType.health = e.stats StatType.health := by
      rw [Entity.get_stat, hmod]
      omega
    have hmax : e.get_stat StatType.maxHealth = e.stats StatType.maxHealth := by
      rw [Entity.get_stat, hmodM]
      omega
    refine ⟨?_, take_damage_snd_temporary_modifiers e damage, ?_, ?_,
      heal_snd_temporary_modifiers e amount, ?_, fun hdead => absurd hdead ha⟩
    · -- invariant after take_damage
      rw [Entity.take_damage, if_neg ha, hcur]
      set actual := max 1 (damage - e.get_stat StatType.defense) with hact
      have hact1 : 1 ≤ actual := le_max_left _ _
      by_cases hz : max 0 (e.stats StatType.health - actual) = 0
      · rw [if_pos hz]
        refine ⟨?_, ?_, ?_⟩
        · simp [Entity.set_stat, Function.update_same, hz]
        · simp only [Entity.set_stat, Function.update_same, hz]
          rw [Function.update_noteq (by decide)]
          omega
        · simp [Entity.set_stat, Function.update_same, hz]
      · rw [if_neg hz]
        refine ⟨?_, ?_, ?_⟩
        · simp only [Entity.set_stat, Function.update_same]
          omega
        · simp only [Entity.set_stat, Function.update_same]
          rw [Function.update_noteq (by decide)]
          omega
        · simp only [Entity.set_stat, halive, Function.update_same]
          constructor
          · intro hcontra
            exact absurd hcontra (by simp)
          · intro hcontra
            omega
    · -- max_health untouched by take_damage
      rw [Entity.take_damage, if_neg ha]
      by_cases hz : max 0 (e.get_stat StatType.health
          - max 1 (damage - e.get_stat StatType.defense)) = 0
      · rw [if_pos hz]
        simp only [Entity.set_stat]
        rw [Function.update_noteq (by decide)]
      · rw [if_neg hz]
        simp only [Entity.set_stat]
        rw [Function.update_noteq (by decide)]
    · -- invariant after heal
      rw [Entity.heal, if_neg ha, hcur, hmax]
      set actual := min amount (e.stats StatType.maxHealth - e.stats StatType.health) with hact
      have hactnn : 0 ≤ actual := le_min hamt (by omega)
      have hactub : actual ≤ e.stats StatType.maxHealth - e.stats StatType.health :=
        min_le_right _ _
      refine ⟨?_, ?_, ?_⟩
      · simp only [Entity.set_stat, Function.update_same]
        omega
      · simp only [Entity.set_stat, Function.update_same]
        rw [Function.update_noteq (by decide)]
        omega
      · simp only [Entity.set_stat, halive, Function.update_same]
        constructor
        · intro hcontra
          exact absurd hcontra (by simp)
        · intro hcontra
          omega
    · -- max_health untouched by heal
      rw [Entity.heal, if_neg ha]
      simp only [Entity.set_stat]
      rw [Function.update_noteq (by decide)]

/-- A healthy concrete entity exercising the hypotheses of the invariant
theorem. -/
def healthyEntity : Entity :=
  { stats := fun s =>
      match s with
      | StatType.health => 100
      | StatType.maxHealth => 100
      | StatType.defense => 5
      | _ => 0,
    temporary_modifiers := fun _ => 0,
    status_effects := [],
    is_alive := true, is_stunned := false, is_defending := false }

/-- Witness for C8 at a concrete entity, damage 7 and healing 3. -/
theorem take_damage_heal_preserve_health_invariant_witness :
    HealthInvariant (healthyEntity.take_damage 7).2 ∧
    HealthInvariant (healthyEntity.heal 3).2 :=
  ⟨(take_damage_heal_preserve_health_invariant healthyEntity 7 3
      ⟨by decide, by decide, by decide⟩ (by decide) (by decide) (by decide)).1,
   (take_damage_heal_preserve_health_invariant healthyEntity 7 3
      ⟨by decide, by decide, by decide⟩ (by decide) (by decide) (by decide)).2.2.2.1⟩

/-- C9: on a dead entity, `take_damage` and `heal` return 0 and leave the
entity — stats, flags, modifiers and active effects — entirely unchanged. -/
theorem dead_entity_take_damage_heal_noop (e : Entity) (damage amount : Int)
    (h : e.is_alive = false) :
    e.take_damage damage = (0, e) ∧ e.heal amount = (0, e) := by
  rw [Entity.take_damage, if_pos h, Entity.heal, if_pos h]
  exact ⟨rfl, rfl⟩

/-- A dead concrete entity. -/
def deadEntity : Entity :=
  { stats := fun s =>
      match s with
      | StatType.maxHealth => 100
      | _ => 0,
    temporary_modifiers := fun _ => 0,
    status_effects := [],
    is_alive := false, is_stunned := false, is_defending := false }

/-- Witness for C9 at a concrete dead entity. -/
theorem dead_entity_take_damage_heal_noop_witness :
    deadEntity.take_damage 12 = (0, deadEntity) ∧ deadEntity.heal 12 = (0, deadEntity) :=
  dead_entity_take_damage_heal_noop deadEntity 12 12 rfl

/-! ### Claims about effect processing (C1, C5) -/

/-- A damage-over-time effect with per-tick damage 5 and duration 3
(`CommonEffects.poison(duration=3, damage=5)` up to the omitted
presentational fields). -/
def poisonEffect : Effect :=
  { name := ("Poison"), duration := 3,
    kind := EffectKind.damageOverTime 5, data := [] }

/-- A living entity with 100 health, no defense and the poison effect
active. -/
def dotHolder : Entity :=
  { stats := fun s =>
      match s with
      | StatType.health => 100
      | StatType.maxHealth => 100
      | _ => 0,
    temporary_modifiers := fun _ => 0,
    status_effects := [poisonEffect],
    is_alive := true, is_stunned := false, is_defending := false }

/-- C1 (the code, evaluated at the claim's own scenario): a
damage-over-time effect with per-tick damage 5 and duration 3, applied and
then processed 3 times, is indeed absent from the holder afterwards — but
the holder's health is still 100, reduced by 0 rather than by 15:
`process_status_effects` invokes each effect's `apply` (a `pass` for
damage-over-time effects, whose source comment says the damage happens in
`tick()`) instead of `tick`, which nothing in the engine ever calls, and it
drops the expired effect without invoking `remove`.  A single genuine
`tick` on the same holder, by contrast, does deal damage. -/
theorem dot_three_passes_deal_no_damage :
    (dotHolder.process_status_effects.process_status_effects.process_status_effects).get_stat
        StatType.health = 100 ∧
    (dotHolder.process_status_effects.process_status_effects.process_status_effects).status_effects
        = [] ∧
    ((poisonEffect.tick dotHolder).2).get_stat StatType.health = 95 := by
  refine ⟨by decide, by decide, by decide⟩

/-- A strength buff: +5 attack for 2 turns
(`CommonEffects.strength_buff(duration=2, power=5)`). -/
def strengthBuff : Effect :=
  { name := ("Strength Buff"), duration := 2,
    kind := EffectKind.statModifier [(("attack" : String), 5)], data := [] }

/-- A living entity with base attack 10 and the strength buff active. -/
def buffHolder : Entity :=
  { stats := fun s =>
      match s with
      | StatType.health => 100
      | StatType.maxHealth => 100
      | StatType.attack => 10
      | _ => 0,
    temporary_modifiers := fun _ => 0,
    status_effects := [strengthBuff],
    is_alive := true, is_stunned := false, is_defending := false }

/-- C5 (the code, evaluated at a +5-attack buff of duration 2 on a base
attack of 10): after the two processing passes that expire the buff, the
effect is gone from the holder but the effective attack stat is 20, not the
pre-application 10 — each pass re-invoked `apply` (stacking the +5 modifier
once per pass), and the expired effect was dropped without `remove` ever
being invoked, so nothing was undone. -/
theorem stat_buff_expiry_does_not_restore_stat :
    (buffHolder.process_status_effects.process_status_effects).status_effects = [] ∧
    (buffHolder.process_status_effects.process_status_effects).get_stat StatType.attack = 20 ∧
    (buffHolder.process_status_effects.process_status_effects).temporary_modifiers
        StatType.attack = 10 := by
  refine ⟨by decide, by decide, by decide⟩

/-! ### Claims about attack resolution (C2, C3, C7) and the end check (C4) -/

theorem take_damage_fst_eq (e : Entity) (damage : Int) (h : e.is_alive = true) :
    (e.take_damage damage).1 = max 1 (damage - e.get_stat StatType.defense) := by
  rw [Entity.take_damage, if_neg (by rw [h]; simp)]
  simp only []
  split
  · rfl
  · rfl

theorem take_damage_snd_is_defending (e : Entity) (damage : Int) :
    (e.take_damage damage).2.is_defending = e.is_defending := by
  rw [Entity.take_damage]
  split
  · rfl
  · simp only []
    split
    · simp [Entity.set_stat]
    · simp [Entity.set_stat]

theorem execute_attack_snd_is_defending (attacker target : Entity) (jitter roll : ℚ) :
    (execute_attack attacker target jitter roll).2.is_defending = target.is_defending := by
  rw [execute_attack]
  split
  · simp only []
    split
    · exact take_damage_snd_is_defending target _
    · exact take_damage_snd_is_defending target _
  · rfl

/-- The attacker of spec Scenario A: attack stat 10 (and speed 10). -/
def scenarioAttacker : Entity :=
  { stats := fun s =>
      match s with
      | StatType.attack => 10
      | StatType.speed => 10
      | StatType.health => 100
      | StatType.maxHealth => 100
      | _ => 0,
    temporary_modifiers := fun _ => 0,
    status_effects := [],
    is_alive := true, is_stunned := false, is_defending := false }

/-- The non-defending target of spec Scenario A: defense stat 5. -/
def scenarioTarget : Entity :=
  { stats := fun s =>
      match s with
      | StatType.defense => 5
      | StatType.health => 100
      | StatType.maxHealth => 100
      | _ => 0,
    temporary_modifiers := fun _ => 0,
    status_effects := [],
    is_alive := true, is_stunned := false, is_defending := false }

/-- C2 counterexample: in Scenario A (attack 10 vs living, non-defending
defense 5) with the jitter drawn as 1 (inside [0.8, 1.2]), the damage the
target actually suffers is `max(1, 5 − 5) = 1`, not a value in [4, 6]:
`take_damage` subtracts the target's defense a second time from the
already-defense-reduced figure. -/
theorem scenarioA_applied_damage_not_in_bounds :
    (scenarioTarget.take_damage (calculate_damage scenarioAttacker scenarioTarget 1)).1 = 1 ∧
    ¬(4 ≤ (scenarioTarget.take_damage
          (calculate_damage scenarioAttacker scenarioTarget 1)).1 ∧
      (scenarioTarget.take_damage
          (calculate_damage scenarioAttacker scenarioTarget 1)).1 ≤ 6) := by
  have ha : scenarioAttacker.get_stat StatType.attack = 10 := by decide
  have hd : scenarioTarget.get_stat StatType.defense = 5 := by decide
  have hdf : scenarioTarget.is_defending = false := by decide
  have hc : calculate_damage scenarioAttacker scenarioTarget 1 = 5 := by
    rw [calculate_damage, ha, hd, hdf]
    norm_num
    have h5 : (5 : ℚ) = ((5 : ℤ) : ℚ) := by norm_num
    rw [h5, pyInt_intCast]
  rw [hc]
  exact ⟨by decide, by decide⟩

/-- C2 as amended: in Scenario A, for every jitter outcome in [0.8, 1.2],
the damage figure computed by `_calculate_damage` (the value handed to
`take_damage`) lies in [4, 6]; the damage actually applied to the target is
then `max(1, figure − 5) = 1`, because `take_damage` applies the target's
defense a second time. -/
theorem scenarioA_calculated_damage_in_bounds (attacker target : Entity) (u : ℚ)
    (hatk : attacker.get_stat StatType.attack = 10)
    (hdef : target.get_stat StatType.defense = 5)
    (hdefending : target.is_defending = false)
    (halive : target.is_alive = true)
    (hu1 : 4 / 5 ≤ u) (hu2 : u ≤ 6 / 5) :
    (4 ≤ calculate_damage attacker target u ∧ calculate_damage attacker target u ≤ 6) ∧
    (target.take_damage (calculate_damage attacker target u)).1 = 1 := by
  have hc : calculate_damage attacker target u = ⌊(5 : ℚ) * u⌋ := by
    rw [calculate_damage, hatk, hdef, hdefending]
    norm_num
    rw [pyInt_eq_floor (by linarith)]
  have hlow : 4 ≤ ⌊(5 : ℚ) * u⌋ := by
    rw [Int.le_floor]
    push_cast
    linarith
  have hhigh : ⌊(5 : ℚ) * u⌋ ≤ 6 := by
    have h6 : (5 : ℚ) * u ≤ ((6 : ℤ) : ℚ) := by push_cast; linarith
    have := Int.floor_le_floor h6
    rwa [Int.floor_intCast] at this
  refine ⟨⟨hc ▸ hlow, hc ▸ hhigh⟩, ?_⟩
  rw [take_damage_fst_eq target _ halive, hdef]
  omega

/-- Witness for the amended C2 at the concrete Scenario A entities and
jitter 1. -/
theorem scenarioA_calculated_damage_in_bounds_witness :
    (4 ≤ calculate_damage scenarioAttacker scenarioTarget 1 ∧
     calculate_damage scenarioAttacker scenarioTarget 1 ≤ 6) ∧
    (scenarioTarget.take_damage
        (calculate_damage scenarioAttacker scenarioTarget 1)).1 = 1 :=
  scenarioA_calculated_damage_in_bounds scenarioAttacker scenarioTarget 1
    (by decide) (by decide) (by decide) (by decide) (by norm_num) (by norm_num)

/-- The target used for the critical-hit claim: defense 0, health 100. -/
def critTarget : Entity :=
  { stats := fun s =>
      match s with
      | StatType.health => 100
      | StatType.maxHealth => 100
      | _ => 0,
    temporary_modifiers := fun _ => 0,
    status_effects := [],
    is_alive := true, is_stunned := false, is_defending := false }

/-- C3 (the code, evaluated at a concrete attack whose critical roll
succeeds): attacker with attack 10 and speed 10 (crit chance 0.06, roll 0
succeeds), jitter 1, target with defense 0 and health 100.  The turn record
reports `damage_dealt = 15` (the 1.5× multiplier applied after the fact),
but the target's health only drops from 100 to 90: the multiplier is never
part of what `take_damage` delivered. -/
theorem crit_multiplier_only_inflates_recorded_damage :
    is_critical_hit scenarioAttacker 0 = true ∧
    (execute_attack scenarioAttacker critTarget 1 0).1.damage_dealt = 15 ∧
    (execute_attack scenarioAttacker critTarget 1 0).2.get_stat StatType.health = 90 := by
  have ha : scenarioAttacker.get_stat StatType.attack = 10 := by decide
  have hd : critTarget.get_stat StatType.defense = 0 := by decide
  have hdf : critTarget.is_defending = false := by decide
  have hcd : calculate_damage scenarioAttacker critTarget 1 = 10 := by
    rw [calculate_damage, ha, hd, hdf]
    norm_num
    have h10 : (10 : ℚ) = ((10 : ℤ) : ℚ) := by norm_num
    rw [h10, pyInt_intCast]
  have hcrit : is_critical_hit scenarioAttacker 0 = true := by
    have hs : scenarioAttacker.get_stat StatType.speed = 10 := by decide
    rw [is_critical_hit, hs, decide_eq_true_eq]
    norm_num
  have htd1 : (critTarget.take_damage 10).1 = 10 := by decide
  have htd2 : (critTarget.take_damage 10).2.get_stat StatType.health = 90 := by decide
  have hrun : execute_attack scenarioAttacker critTarget 1 0 =
      ({ damage_dealt := pyInt (((critTarget.take_damage 10).1 : ℚ) * (3 / 2)),
         healing_done := 0,
         effects_applied := [("critical_hit")],
         success := true }, (critTarget.take_damage 10).2) := by
    rw [execute_attack, if_pos (show critTarget.is_alive = true from rfl), hcd]
    simp only [hcrit, if_true, List.nil_append]
  refine ⟨hcrit, ?_, ?_⟩
  · rw [hrun]
    show pyInt (((critTarget.take_damage 10).1 : ℚ) * (3 / 2)) = 15
    rw [htd1]
    have h15 : ((10 : ℤ) : ℚ) * (3 / 2) = ((15 : ℤ) : ℚ) := by norm_num
    rw [h15, pyInt_intCast]
  · rw [hrun]
    exact htd2

/-- A defending target: the defending flag is set, as after a defend
action. -/
def defendingTarget : Entity :=
  { stats := fun s =>
      match s with
      | StatType.defense => 5
      | StatType.health => 100
      | StatType.maxHealth => 100
      | _ => 0,
    temporary_modifiers := fun _ => 0,
    status_effects := [],
    is_alive := true, is_stunned := false, is_defending := true }

/-- C7 counterexample: resolving an attack against a concrete defending
target leaves the target still defending — the flag is not cleared after it
has reduced an incoming attack. -/
theorem attack_on_defender_leaves_flag_set :
    (execute_attack scenarioAttacker defendingTarget 1 1).2.is_defending = true := by
  rw [execute_attack_snd_is_defending]
  rfl

/-- C7 as amended: attack resolution never touches the target's defending
flag (while set, it keeps doubling the effective defense of every incoming
attack); the flag is only cleared by `reset_combat_state`, which the engine
invokes at combat initialization and at combat end. -/
theorem defending_flag_persists_through_attacks (attacker target : Entity)
    (jitter roll : ℚ) :
    (execute_attack attacker target jitter roll).2.is_defending = target.is_defending ∧
    target.reset_combat_state.is_defending = false :=
  ⟨execute_attack_snd_is_defending attacker target jitter roll, rfl⟩

/-- A living player-side combatant for the flee scenario. -/
def fleeingPlayer : Entity :=
  { stats := fun s =>
      match s with
      | StatType.health => 80
      | StatType.maxHealth => 100
      | _ => 0,
    temporary_modifiers := fun _ => 0,
    status_effects := [],
    is_alive := true, is_stunned := false, is_defending := false }

/-- A living enemy combatant for the flee scenario. -/
def opposingEnemy : Entity :=
  { stats := fun s =>
      match s with
      | StatType.health => 60
      | StatType.maxHealth => 80
      | _ => 0,
    temporary_modifiers := fun _ => 0,
    status_effects := [],
    is_alive := true, is_stunned := false, is_defending := false }

/-- C4 (the code, evaluated at a resolved flee): the flee resolution marks
the turn successful and tagged `fled`, yet with both sides still alive the
terminal-condition check returns Ongoing — and in fact it can never return
Flee for any participants and any log, because its flee test scans the
combat log's strings for an `effects_applied` attribute that strings never
have, leaving nothing to match `fled` against. -/
theorem flee_leaves_encounter_ongoing :
    (execute_flee true).success = true ∧
    (execute_flee true).effects_applied = [("fled")] ∧
    check_combat_end [fleeingPlayer] [opposingEnemy]
        [("Turn 1: Hero flees from combat!")] = CombatResult.ongoing ∧
    ∀ (players enemies : List Entity) (combat_log : List String),
      check_combat_end players enemies combat_log ≠ CombatResult.flee := by
  refine ⟨by decide, by decide, by decide, ?_⟩
  intro players enemies combat_log
  rw [check_combat_end]
  simp only [log_entry_has_effects_applied, List.filter_false]
  split
  · simp
  · split
    · simp
    · split
      · next hfled =>
          simp at hfled
      · simp

/-! ### Claims about the non-player action policy (C10) -/

theorem aggressive_ai_ne_area_attack (en : Enemy) (actions : List String) :
    en.aggressive_ai actions ≠ ("area_attack") := by
  rw [Enemy.aggressive_ai]
  split
  · decide
  · split
    · decide
    · decide

theorem defensive_ai_ne_area_attack (en : Enemy) (actions : List String) :
    en.defensive_ai actions ≠ ("area_attack") := by
  rw [Enemy.defensive_ai]
  split
  · decide
  · split
    · decide
    · decide

theorem healer_ai_ne_area_attack (en : Enemy) (actions : List String) :
    en.healer_ai actions ≠ ("area_attack") := by
  rw [Enemy.healer_ai]
  split
  · decide
  · split
    · decide
    · decide

theorem spellcaster_ai_ne_area_attack (en : Enemy) (actions : List String) :
    en.spellcaster_ai actions ≠ ("area_attack") := by
  rw [Enemy.spellcaster_ai]
  split
  · decide
  · split
    · decide
    · decide

theorem balanced_ai_ne_area_attack (en : Enemy) (actions : List String)
    (rand_special : ℚ) (rand_choice : Bool) :
    en.balanced_ai actions rand_special rand_choice ≠ ("area_attack") := by
  rw [Enemy.balanced_ai]
  split
  · decide
  · split
    · decide
    · split
      · decide
      · decide

/-- C10: for mini-boss and boss tiers, `area_attack` is offered in the
available-action set, yet no behavior tag's decision rule ever returns it —
for every enemy state and every outcome of the policy's random draws, the
selected action differs from `area_attack`. -/
theorem area_attack_offered_but_never_selected (en : Enemy)
    (harea : en.enemy_type = EnemyType.miniboss ∨ en.enemy_type = EnemyType.boss) :
    en.get_available_actions.contains ("area_attack") = true ∧
    ∀ (en' : Enemy) (rand_special : ℚ) (rand_choice : Bool),
      (en'.get_ai_action rand_special rand_choice).1 ≠ ("area_attack") := by
  constructor
  · rcases harea with h | h
    · rw [Enemy.get_available_actions, h]
      split
      · decide
      · decide
    · rw [Enemy.get_available_actions, h]
      split
      · decide
      · decide
  · intro en' rand_special rand_choice
    rcases en' with ⟨base, etype, behavior, cds⟩
    cases behavior
    · exact aggressive_ai_ne_area_attack _ _
    · exact defensive_ai_ne_area_attack _ _
    · exact balanced_ai_ne_area_attack _ _ rand_special rand_choice
    · exact healer_ai_ne_area_attack _ _
    · exact spellcaster_ai_ne_area_attack _ _

/-- A concrete boss enemy offering `area_attack`. -/
def bossEnemy : Enemy :=
  { base :=
      { stats := fun s =>
          match s with
          | StatType.health => 280
          | StatType.maxHealth => 280
          | StatType.mana => 40
          | _ => 0,
        temporary_modifiers := fun _ => 0,
        status_effects := [],
        is_alive := true, is_stunned := false, is_defending := false },
    enemy_type := EnemyType.boss,
    behavior := EnemyBehavior.aggressive,
    ai_cooldowns := fun _ => 0 }

/-- Witness for C10 at the concrete boss enemy (offering `area_attack`) and
a concrete draw of the policy's randomness. -/
theorem area_attack_offered_but_never_selected_witness :
    bossEnemy.get_available_actions.contains ("area_attack") = true ∧
    (bossEnemy.get_ai_action (1 / 2) true).1 ≠ ("area_attack") :=
  ⟨(area_attack_offered_but_never_selected bossEnemy (Or.inr rfl)).1,
   (area_attack_offered_but_never_selected bossEnemy (Or.inr rfl)).2 bossEnemy (1 / 2) true⟩

/-! ### Claims about the inventory (C6) -/

theorem lookupItem_some_find? (inv : Inventory) (n : String) (it : Item)
    (h : lookupItem inv n = some it) :
    ∃ p0, inv.items.find? (fun p => p.1 == n) = some p0 ∧ p0.2 = it := by
  rw [lookupItem] at h
  cases hf : inv.items.find? (fun p => p.1 == n) with
  | none => rw [hf] at h; simp at h
  | some p0 =>
      rw [hf] at h
      simp at h
      exact ⟨p0, rfl, h⟩

theorem lookupItem_none_find? (inv : Inventory) (n : String)
    (h : lookupItem inv n = none) :
    inv.items.find? (fun p => p.1 == n) = none := by
  rw [lookupItem] at h
  cases hf : inv.items.find? (fun p => p.1 == n) with
  | none => rfl
  | some p0 => rw [hf] at h; simp at h

theorem setEntry_sum_found (l : List (String × Item)) (n : String) (p0 : String × Item)
    (it : Item) (h : l.find? (fun p => p.1 == n) = some p0) :
    ((setEntry l n it).map (fun p => p.2.quantity)).sum
      = (l.map (fun p => p.2.quantity)).sum - p0.2.quantity + it.quantity := by
  induction l with
  | nil => simp at h
  | cons hd tl ih =>
    by_cases hh : hd.1 == n
    · have hf : List.find? (fun p => p.1 == n) (hd :: tl) = some hd :=
        List.find?_cons_of_pos tl hh
      rw [hf] at h
      have hp : hd = p0 := by injection h
      subst hp
      rw [setEntry, if_pos hh]
      simp only [List.map_cons, List.sum_cons]
      ring
    · have hf : List.find? (fun p => p.1 == n) (hd :: tl)
          = List.find? (fun p => p.1 == n) tl :=
        List.find?_cons_of_neg tl (by simpa using hh)
      rw [hf] at h
      rw [setEntry, if_neg hh]
      simp only [List.map_cons, List.sum_cons, ih h]
      ring

theorem setEntry_sum_none (l : List (String × Item)) (n : String) (it : Item)
    (h : l.find? (fun p => p.1 == n) = none) :
    ((setEntry l n it).map (fun p => p.2.quantity)).sum
      = (l.map (fun p => p.2.quantity)).sum + it.quantity := by
  induction l with
  | nil => simp [setEntry]
  | cons hd tl ih =>
    by_cases hh : hd.1 == n
    · have hf : List.find? (fun p => p.1 == n) (hd :: tl) = some hd :=
        List.find?_cons_of_pos tl hh
      rw [hf] at h
      exact absurd h (by simp)
    · have hf : List.find? (fun p => p.1 == n) (hd :: tl)
          = List.find? (fun p => p.1 == n) tl :=
        List.find?_cons_of_neg tl (by simpa using hh)
      rw [hf] at h
      rw [setEntry, if_neg hh]
      simp only [List.map_cons, List.sum_cons, ih h]
      ring

theorem delEntry_sum_found (l : List (String × Item)) (n : String) (p0 : String × Item)
    (h : l.find? (fun p => p.1 == n) = some p0) :
    ((delEntry l n).map (fun p => p.2.quantity)).sum
      = (l.map (fun p => p.2.quantity)).sum - p0.2.quantity := by
  induction l with
  | nil => simp at h
  | cons hd tl ih =>
    by_cases hh : hd.1 == n
    · have hf : List.find? (fun p => p.1 == n) (hd :: tl) = some hd :=
        List.find?_cons_of_pos tl hh
      rw [hf] at h
      have hp : hd = p0 := by injection h
      subst hp
      rw [delEntry, if_pos hh]
      simp only [List.map_cons, List.sum_cons]
      ring
    · rw [List.find?_cons_of_neg _ (by simpa using hh)] at h
      rw [delEntry, if_neg hh]
      simp only [List.map_cons, List.sum_cons, ih h]
      ring

theorem add_item_of_nonpos (inv : Inventory) (item : Item) {q : Int} (hq : q ≤ 0) :
    inv.add_item item q = (false, inv) := by
  rw [Inventory.add_item]
  simp only [add_item_fuel]
  rw [if_pos hq]

theorem add_item_of_not_can (inv : Inventory) (item : Item) (q : Int)
    (hc : inv.can_add_item item q = false) :
    inv.add_item item q = (false, inv) := by
  by_cases hq : q ≤ 0
  · exact add_item_of_nonpos inv item hq
  · rw [Inventory.add_item]
    simp only [add_item_fuel]
    rw [if_neg hq, if_pos (by rw [hc]; rfl)]

theorem add_item_stack_overflow (inv : Inventory) (item : Item) (q : Int) (existing : Item)
    (hs : item.stackable = true) (hl : lookupItem inv item.name = some existing)
    (hov : existing.max_stack < existing.quantity + q) :
    inv.add_item item q = (false, inv) := by
  apply add_item_of_not_can
  simp only [Inventory.can_add_item, hl, hs, if_true]
  rw [decide_eq_false_iff_not]
  omega

theorem add_item_stack_fits (inv : Inventory) (item : Item) (q : Int) (existing : Item)
    (hq : ¬ q ≤ 0) (hs : item.stackable = true)
    (hl : lookupItem inv item.name = some existing)
    (hfit : existing.quantity + q ≤ existing.max_stack) :
    inv.add_item item q =
      (true, { inv with items := (setEntry inv.items item.name
                  { existing with quantity := existing.quantity + q }) }) := by
  have hcan : inv.can_add_item item q = true := by
    simp only [Inventory.can_add_item, hl, hs, if_true]
    exact decide_eq_true hfit
  rw [Inventory.add_item]
  simp only [add_item_fuel]
  rw [if_neg hq, if_neg (by rw [hcan]; decide)]
  simp only [hl]
  rw [if_pos hs, if_pos hfit]

theorem add_item_fresh (inv : Inventory) (item : Item) (q : Int)
    (hq : ¬ q ≤ 0) (hl : lookupItem inv item.name = none) (hfull : inv.is_full = false) :
    inv.add_item item q =
      (true, { inv with items := (setEntry inv.items item.name { item with quantity := q }),
                        item_order := inv.item_order ++ [item.name] }) := by
  have hcan : inv.can_add_item item q = true := by
    simp only [Inventory.can_add_item, hl, hfull]
    rfl
  rw [Inventory.add_item]
  simp only [add_item_fuel]
  rw [if_neg hq, if_neg (by rw [hcan]; decide)]
  simp only [hl]

theorem add_item_success_of_can (inv : Inventory) (item : Item) (q : Int)
    (hq : ¬ q ≤ 0) (hcan : inv.can_add_item item q = true) :
    (inv.add_item item q).1 = true := by
  rw [Inventory.add_item]
  simp only [add_item_fuel]
  rw [if_neg hq, if_neg (by rw [hcan]; decide)]
  cases hl : lookupItem inv item.name with
  | none => simp only [hl]
  | some existing =>
      simp only [hl]
      by_cases hs : item.stackable
      · have hfit : existing.quantity + q ≤ existing.max_stack := by
          simp only [Inventory.can_add_item, hl, hs, if_true] at hcan
          exact of_decide_eq_true hcan
        rw [if_pos hs, if_pos hfit]
      · rw [if_neg hs]

theorem add_item_fail_eq (inv : Inventory) (item : Item) (q : Int)
    (h : (inv.add_item item q).1 = false) :
    (inv.add_item item q).2 = inv := by
  by_cases hq : q ≤ 0
  · rw [add_item_of_nonpos inv item hq]
  · cases hcan : inv.can_add_item item q with
    | false => rw [add_item_of_not_can inv item q hcan]
    | true =>
        rw [add_item_success_of_can inv item q hq hcan] at h
        exact absurd h (by decide)

theorem add_item_success_total (inv : Inventory) (item : Item) (q : Int)
    (hs : item.stackable = true) (h : (inv.add_item item q).1 = true) :
    (inv.add_item item q).2.total_quantity = inv.total_quantity + q := by
  by_cases hq : q ≤ 0
  · rw [add_item_of_nonpos inv item hq] at h
    simp at h
  · cases hcan : inv.can_add_item item q with
    | false =>
        rw [add_item_of_not_can inv item q hcan] at h
        simp at h
    | true =>
        cases hl : lookupItem inv item.name with
        | none =>
            have hfull : inv.is_full = false := by
              cases hfu : inv.is_full with
              | false => rfl
              | true =>
                  simp only [Inventory.can_add_item, hl, hfu] at hcan
                  exact absurd hcan (by decide)
            rw [add_item_fresh inv item q hq hl hfull]
            rw [Inventory.total_quantity, Inventory.total_quantity]
            exact setEntry_sum_none inv.items item.name _ (lookupItem_none_find? inv _ hl)
        | some existing =>
            have hfit : existing.quantity + q ≤ existing.max_stack := by
              simp only [Inventory.can_add_item, hl, hs, if_true] at hcan
              exact of_decide_eq_true hcan
            rw [add_item_stack_fits inv item q existing hq hs hl hfit]
            obtain ⟨p0, hfind, hp2⟩ := lookupItem_some_find? inv _ _ hl
            rw [Inventory.total_quantity, Inventory.total_quantity]
            rw [setEntry_sum_found inv.items item.name p0 _ hfind, hp2]
            ring

theorem remove_item_fail_eq (inv : Inventory) (nm : String) (q : Int)
    (h : (inv.remove_item nm q).1 = false) :
    (inv.remove_item nm q).2 = inv := by
  rw [Inventory.remove_item] at h ⊢
  cases hl : lookupItem inv nm with
  | none => simp only [hl]
  | some item =>
      simp only [hl] at h ⊢
      by_cases hlt : item.quantity < q
      · rw [if_pos hlt]
      · rw [if_neg hlt] at h
        split at h
        · simp at h
        · simp at h

theorem remove_item_success_total (inv : Inventory) (nm : String) (q : Int)
    (h : (inv.remove_item nm q).1 = true) :
    (inv.remove_item nm q).2.total_quantity = inv.total_quantity - q := by
  rw [Inventory.remove_item] at h ⊢
  cases hl : lookupItem inv nm with
  | none =>
      simp only [hl] at h
      simp at h
  | some item =>
      simp only [hl] at h ⊢
      by_cases hlt : item.quantity < q
      · rw [if_pos hlt] at h
        simp at h
      · rw [if_neg hlt]
        obtain ⟨p0, hfind, hp2⟩ := lookupItem_some_find? inv _ _ hl
        by_cases hz : item.quantity - q ≤ 0
        · rw [if_pos hz]
          rw [Inventory.total_quantity, Inventory.total_quantity]
          rw [delEntry_sum_found inv.items nm p0 hfind, hp2]
          omega
        · rw [if_neg hz]
          rw [Inventory.total_quantity, Inventory.total_quantity]
          rw [setEntry_sum_found inv.items nm p0 _ hfind, hp2]
          simp only []
          ring

/-- An empty inventory with the source's default capacity 50. -/
def emptyInventory : Inventory :=
  { max_capacity := 50, items := [], item_order := [] }

/-- A stackable potion with max stack size 10. -/
def potionItem : Item :=
  { name := ("Potion"), stackable := true, max_stack := 10, quantity := 1 }

/-- C6 counterexample: adding quantity 6 and then quantity 7 of a stackable
item with max stack 10 to an inventory with ample capacity does *not* yield
a total of 13 split across two stacks — the second add fails outright
(`_can_add_item` rejects any quantity that does not fit the one existing
stack, and the name-keyed dict cannot hold a second stack of the same
item), leaving the total at 6. -/
theorem stack_overflow_add_fails_counterexample :
    ((emptyInventory.add_item potionItem 6).2.add_item potionItem 7).1 = false ∧
    ((emptyInventory.add_item potionItem 6).2.add_item potionItem 7).2.total_quantity = 6 ∧
    ¬(((emptyInventory.add_item potionItem 6).2.add_item potionItem 7).2.total_quantity
        = 6 + 7) := by
  refine ⟨by decide, by decide, by decide⟩

/-- C6 as amended: an add that would overflow an existing stack fails
atomically (returns false, no mutation, no additional stack entry); in all
other respects the bookkeeping is conservative — a successful add of a
stackable item raises the total stored quantity by exactly the quantity
added (in one stack entry), a successful remove lowers it by exactly the
quantity removed, and failed adds/removes leave the inventory unchanged.
In particular, adding q1 then q2 with q1 + q2 within one max stack yields a
total of q1 + q2. -/
theorem inventory_totals_law (inv : Inventory) (item : Item) (nm : String) (q : Int) :
    (∀ existing, item.stackable = true → lookupItem inv item.name = some existing →
        existing.max_stack < existing.quantity + q → inv.add_item item q = (false, inv)) ∧
    (item.stackable = true → (inv.add_item item q).1 = true →
        (inv.add_item item q).2.total_quantity = inv.total_quantity + q) ∧
    ((inv.add_item item q).1 = false → (inv.add_item item q).2 = inv) ∧
    ((inv.remove_item nm q).1 = true →
        (inv.remove_item nm q).2.total_quantity = inv.total_quantity - q) ∧
    ((inv.remove_item nm q).1 = false → (inv.remove_item nm q).2 = inv) := by
  refine ⟨?_, ?_, ?_, ?_, ?_⟩
  · intro existing hs hl hov
    exact add_item_stack_overflow inv item q existing hs hl hov
  · intro hs hsucc
    exact add_item_success_total inv item q hs hsucc
  · intro hfail
    exact add_item_fail_eq inv item q hfail
  · intro hsucc
    exact remove_item_success_total inv nm q hsucc
  · intro hfail
    exact remove_item_fail_eq inv nm q hfail

/-- Witness for the amended C6: exercises the overflow-failure clause, both
success clauses (including the two-add round trip 6 then 3 totalling 9
within one max stack) and both failure clauses at concrete inventories. -/
theorem inventory_totals_law_witness :
    (emptyInventory.add_item potionItem 6).2.add_item potionItem 7
        = (false, (emptyInventory.add_item potionItem 6).2) ∧
    (emptyInventory.add_item potionItem 6).2.total_quantity
        = emptyInventory.total_quantity + 6 ∧
    ((emptyInventory.add_item potionItem 6).2.add_item potionItem 3).2.total_quantity = 9 ∧
    (emptyInventory.add_item potionItem 0).2 = emptyInventory ∧
    ((emptyInventory.add_item potionItem 6).2.remove_item ("Potion") 2).2.total_quantity
        = (emptyInventory.add_item potionItem 6).2.total_quantity - 2 ∧
    (emptyInventory.remove_item ("Potion") 1).2 = emptyInventory := by
  have h1 := (inventory_totals_law emptyInventory potionItem ("Potion") 6).2.1 rfl (by decide)
  have h2 := (inventory_totals_law (emptyInventory.add_item potionItem 6).2 potionItem
      ("Potion") 3).2.1 rfl (by decide)
  refine ⟨(inventory_totals_law (emptyInventory.add_item potionItem 6).2 potionItem
      ("Potion") 7).1 { potionItem with quantity := 6 } rfl (by decide) (by decide),
    h1, ?_, ?_, ?_, ?_⟩
  · rw [h2, h1]
    decide
  · exact (inventory_totals_law emptyInventory potionItem ("Potion") 0).2.2.1 (by decide)
  · exact (inventory_totals_law (emptyInventory.add_item potionItem 6).2 potionItem
      ("Potion") 2).2.2.2.1 (by decide)
  · exact (inventory_totals_law emptyInventory potionItem ("Potion") 1).2.2.2.2 (by decide)

end PocketRPG
